import Mathlib

/-!
Verification of the asset-generation orchestration layer of the
`mcp-game-asset-gen` repository: the pixel-level background-transparency
converter (`src/utils/imageUtils.ts`), the 3D model/variant selection,
option merging, validation and reference-image pipeline
(`src/providers/model3dHelpers.ts`), and the FAL.ai 3D generation
functions (`src/utils/model3dUtils.ts`).

Machine integers of the source (pixel channel bytes, counts, sizes) are
modelled as `Nat`/`Int`.  Fallible operations return `Except String`.
External capabilities (file reads, HTTP transport, the 2D image-generation
capability, file deletion) are modelled as oracle fields of an environment
record, and every network interaction performed by an embedded function is
recorded in an explicit trace so that claims of the form "before any
network call" are statements about that trace.
-/

/-! ## Pixel model and the transparency converter (imageUtils.ts) -/

/-- One RGBA pixel of a decoded image buffer; each channel is a byte. -/
structure Pixel where
  r : Nat
  g : Nat
  b : Nat
  a : Nat
deriving DecidableEq, Repr

/-- A decoded raster image: width, height and the flat pixel buffer in
row-major order (the canvas `ImageData` layout, four bytes per pixel,
grouped here as one `Pixel` per group of four bytes). -/
structure Image where
  width : Nat
  height : Nat
  pixels : List Pixel
deriving DecidableEq, Repr

/-- Background-color mode of `convertToTransparentBackground`. -/
inductive BackgroundColor where
  | white
  | black
  | auto
deriving DecidableEq, Repr

def defaultPixel : Pixel := ⟨0, 0, 0, 0⟩

/-- `data[(y * width + x) * 4 .. +3]` of the source, at pixel granularity. -/
def pixelAt (img : Image) (x y : Nat) : Pixel :=
  img.pixels.getD (y * img.width + x) defaultPixel

/-- `Math.round(total / 4)` for a `Nat` total: JavaScript rounds half
toward positive infinity, and `total / 4` is exact in binary floating
point, so the rounded value is `⌊(total + 2) / 4⌋`. -/
def jsRoundDiv4 (total : Nat) : Nat :=
  (total + 2) / 4

/-- Target RGB determination of `convertImagePixelsToTransparent`
(imageUtils.ts lines 266-290): fixed white or black, or for `auto` the
per-channel `Math.round`ed average of the four corner pixels. -/
def targetColor (backgroundColor : BackgroundColor) (img : Image) : Nat × Nat × Nat :=
  match backgroundColor with
  | .white => (255, 255, 255)
  | .black => (0, 0, 0)
  | .auto =>
    let c1 := pixelAt img 0 0
    let c2 := pixelAt img (img.width - 1) 0
    let c3 := pixelAt img 0 (img.height - 1)
    let c4 := pixelAt img (img.width - 1) (img.height - 1)
    (jsRoundDiv4 (c1.r + c2.r + c3.r + c4.r),
     jsRoundDiv4 (c1.g + c2.g + c3.g + c4.g),
     jsRoundDiv4 (c1.b + c2.b + c3.b + c4.b))

/-- Squared Euclidean RGB distance between a pixel and the target color. -/
def distSq (p : Pixel) (tR tG tB : Nat) : Int :=
  ((p.r : Int) - tR) ^ 2 + ((p.g : Int) - tG) ^ 2 + ((p.b : Int) - tB) ^ 2

/-- The source computes `Math.sqrt(distSq) <= tolerance`.  Both `distSq`
and `tolerance` are integers far below 2^53 and IEEE `sqrt` is correctly
rounded, so that comparison holds exactly when `distSq ≤ tolerance ^ 2`;
the embedding uses the integer form. -/
def matchesTarget (p : Pixel) (tR tG tB tolerance : Nat) : Bool :=
  decide (distSq p tR tG tB ≤ (tolerance : Int) ^ 2)

/-- Per-pixel loop of `convertImagePixelsToTransparent` (imageUtils.ts
lines 293-309): alpha of a matched pixel is set to 0, everything else is
copied unchanged. -/
def transparentizePixel (tR tG tB tolerance : Nat) (p : Pixel) : Pixel :=
  if matchesTarget p tR tG tB tolerance then { p with a := 0 } else p

/-- `convertImagePixelsToTransparent` (imageUtils.ts lines 245-319):
determine the target color from the mode, then zero the alpha of every
pixel within `tolerance` Euclidean RGB distance of it.  Decode/encode of
the PNG container are outside the pixel algorithm and not modelled. -/
def convertImagePixelsToTransparent (img : Image) (backgroundColor : BackgroundColor)
    (tolerance : Nat) : Image :=
  let t := targetColor backgroundColor img
  { img with pixels := img.pixels.map (transparentizePixel t.1 t.2.1 t.2.2 tolerance) }

/-! ## 3D model enums, variant selection and option records
(model3dHelpers.ts, model3dUtils.ts) -/

/-- The model families accepted by `model3dHelpers.ts` (`'trellis' | 'hunyuan3d'`). -/
inductive Model3DModel where
  | trellis
  | hunyuan3d
deriving DecidableEq, Repr

/-- The four variants (`'single' | 'multi' | 'single-turbo' | 'multi-turbo'`). -/
inductive Model3DVariant where
  | single
  | multi
  | singleTurbo
  | multiTurbo
deriving DecidableEq, Repr

/-- Output format (`'glb' | 'gltf'`). -/
inductive Model3DFormat where
  | glb
  | gltf
deriving DecidableEq, Repr

/-- `'standard' | 'high'` quality flag. -/
inductive Quality where
  | standard
  | high
deriving DecidableEq, Repr

/-- Reference image model (`'openai' | 'gemini' | 'falai'`). -/
inductive RefModel where
  | openai
  | gemini
  | falai
deriving DecidableEq, Repr

/-- Viewpoints (`'front' | 'back' | 'top' | 'left' | 'right'`). -/
inductive View where
  | front
  | back
  | top
  | left
  | right
deriving DecidableEq, Repr

def modelTag : Model3DModel → String
  | .trellis => "trellis"
  | .hunyuan3d => "hunyuan3d"

def variantTag : Model3DVariant → String
  | .single => "single"
  | .multi => "multi"
  | .singleTurbo => "single-turbo"
  | .multiTurbo => "multi-turbo"

def formatTag : Model3DFormat → String
  | .glb => "glb"
  | .gltf => "gltf"

def refModelTag : RefModel → String
  | .openai => "openai"
  | .gemini => "gemini"
  | .falai => "falai"

def viewTag : View → String
  | .front => "front"
  | .back => "back"
  | .top => "top"
  | .left => "left"
  | .right => "right"

/-- `variant.includes('multi')` on the variant tag strings: true exactly
for `multi` and `multi-turbo`. -/
def variantIncludesMulti : Model3DVariant → Bool
  | .multi => true
  | .multiTurbo => true
  | _ => false

/-- `variant.includes('turbo')` on the variant tag strings: true exactly
for `single-turbo` and `multi-turbo`. -/
def variantIncludesTurbo : Model3DVariant → Bool
  | .singleTurbo => true
  | .multiTurbo => true
  | _ => false

/-- The non-accelerated single/multi split of a variant is single-image. -/
def variantIsSingleImage (v : Model3DVariant) : Bool :=
  !variantIncludesMulti v

/-- The accelerated counterpart of a variant of the same input arity. -/
def turboCounterpart : Model3DVariant → Model3DVariant
  | .single => .singleTurbo
  | .multi => .multiTurbo
  | v => v

/-- `selectModelVariant` (model3dHelpers.ts lines 81-96). -/
def selectModelVariant (model : Model3DModel) (inputImageCount : Nat)
    (preferTurbo : Bool := false) : Model3DVariant :=
  match model with
  | .trellis => if inputImageCount ≤ 1 then .single else .multi
  | .hunyuan3d =>
    if preferTurbo then
      if inputImageCount ≤ 1 then .singleTurbo else .multiTurbo
    else
      if inputImageCount ≤ 1 then .single else .multi

/-- `Model3DGenerationOptionsExtended` (model3dHelpers.ts lines 16-21 over
model3dUtils.ts lines 48-57).  `outputPath` and `model` are required in
TypeScript; every other field is optional, `none` meaning the key is
absent from the object. -/
structure ExtOptions where
  prompt : Option String := none
  inputImagePaths : Option (List String) := none
  outputPath : String
  model : Model3DModel
  variant : Option Model3DVariant := none
  format : Option Model3DFormat := none
  quality : Option Quality := none
  textured_mesh : Option Bool := none
  autoGenerateReferences : Option Bool := none
  referenceModel : Option RefModel := none
  referenceViews : Option (List View) := none
  cleanupReferences : Option Bool := none
deriving DecidableEq, Repr

/-- `Partial<Model3DGenerationOptionsExtended>`: every field optional,
including `outputPath` and `model`. -/
structure PartialOptions where
  prompt : Option String := none
  inputImagePaths : Option (List String) := none
  outputPath : Option String := none
  model : Option Model3DModel := none
  variant : Option Model3DVariant := none
  format : Option Model3DFormat := none
  quality : Option Quality := none
  textured_mesh : Option Bool := none
  autoGenerateReferences : Option Bool := none
  referenceModel : Option RefModel := none
  referenceViews : Option (List View) := none
  cleanupReferences : Option Bool := none
deriving DecidableEq, Repr

/-- `getDefault3DOptions` (model3dHelpers.ts lines 265-292): the defaults
table per model family (the `default:` throw of the source is unreachable
for the two-value model union). -/
def getDefault3DOptions (model : Model3DModel) : PartialOptions :=
  match model with
  | .trellis =>
    { model := some .trellis
      variant := some .multi
      format := some .glb
      autoGenerateReferences := some true
      referenceModel := some .gemini
      referenceViews := some [.front, .back, .top]
      cleanupReferences := some true }
  | .hunyuan3d =>
    { model := some .hunyuan3d
      variant := some .multi
      format := some .glb
      autoGenerateReferences := some true
      referenceModel := some .gemini
      referenceViews := some [.front, .back, .top]
      cleanupReferences := some true }

/-- `merge3DWithDefaults` (model3dHelpers.ts lines 295-298), i.e. the
object spread `{...defaults, ...options}`: a key present in `options`
wins, a key only in `defaults` survives, the required `outputPath` and
`model` keys are always present in `options` and therefore always win. -/
def merge3DWithDefaults (options : ExtOptions) : ExtOptions :=
  let d := getDefault3DOptions options.model
  { prompt := options.prompt <|> d.prompt
    inputImagePaths := options.inputImagePaths <|> d.inputImagePaths
    outputPath := options.outputPath
    model := options.model
    variant := options.variant <|> d.variant
    format := options.format <|> d.format
    quality := options.quality <|> d.quality
    textured_mesh := options.textured_mesh <|> d.textured_mesh
    autoGenerateReferences := options.autoGenerateReferences <|> d.autoGenerateReferences
    referenceModel := options.referenceModel <|> d.referenceModel
    referenceViews := options.referenceViews <|> d.referenceViews
    cleanupReferences := options.cleanupReferences <|> d.cleanupReferences }

/-! ## String helpers modelling the path regexes of the source -/

/-- JavaScript truthiness of an optional string: defined and non-empty. -/
def strTruthy : Option String → Bool
  | some s => !(s == "")
  | none => false

/-- `s.startsWith(pre)`, computed on the underlying character list. -/
def jsStartsWith (s pre : String) : Bool :=
  pre.data.isPrefixOf s.data

/-- `s.trim()`: strip leading and trailing whitespace, computed on the
underlying character list. -/
def jsTrim (s : String) : String :=
  String.mk (((s.data.dropWhile Char.isWhitespace).reverse.dropWhile
    Char.isWhitespace).reverse)

/-- `s.toLowerCase()` on the underlying character list. -/
def strToLower (s : String) : String :=
  String.mk (s.data.map Char.toLower)

/-- `s.toUpperCase()` on the underlying character list. -/
def strToUpper (s : String) : String :=
  String.mk (s.data.map Char.toUpper)

/-- `s.replace(/\.[^.]+$/, suffix)`: if `s` ends in a dot followed by at
least one non-dot character, replace that final extension (including its
dot) by `suffix`; otherwise return `s` unchanged.  The first dot found
from the right is the last dot of `s`, so every character after it is
automatically a non-dot. -/
def replaceFinalExt (s suffix : String) : String :=
  let rev := s.data.reverse
  match rev.findIdx? (fun c => c == '.') with
  | some i => if 1 ≤ i then String.mk ((rev.drop (i + 1)).reverse) ++ suffix else s
  | none => s

/-- The portion of `p` after its last `/` (the `path.basename`-like part
used by `path.extname`). -/
def lastSegment (p : String) : String :=
  match p.data.reverse.findIdx? (fun c => c == '/') with
  | some i => String.mk ((p.data.reverse.take i).reverse)
  | none => p

/-- `path.extname(p)`: the substring of the last path segment from its
last dot to the end, unless that dot is the segment's first character or
there is no dot, in which case the empty string. -/
def extname (p : String) : String :=
  let seg := lastSegment p
  let rev := seg.data.reverse
  match rev.findIdx? (fun c => c == '.') with
  | some i =>
    if i + 1 < seg.data.length then String.mk ((rev.take (i + 1)).reverse) else ""
  | none => ""

/-- Format tag of `getModel3DInfo` (model3dUtils.ts lines 127-136):
`path.extname(p).toLowerCase().replace('.', '').toUpperCase()`. -/
def modelFormatOf (p : String) : String :=
  let ext := strToLower (extname p)
  strToUpper (if jsStartsWith ext "." then String.mk (ext.data.drop 1) else ext)

/-! ## Environment (external capabilities) and network trace -/

/-- Request bodies shaped by the six FAL.ai 3D generation functions
(model3dUtils.ts).  Only the request fields that vary with the inputs are
modelled; the constant numeric tuning fields (`ss_guidance_strength`,
`ss_sampling_steps`, `slat_guidance_strength`, `slat_sampling_steps`,
`mesh_simplify`, `num_inference_steps`, `guidance_scale`,
`octree_resolution`) are fixed literals in the source and carry no
information about the call. -/
inductive RequestBody where
  | trellisSingle (image_url : String) (texture_size : Nat)
  | trellisMulti (image_urls : List String) (texture_size : Nat) (multiimage_algo : String)
  | hunyuanSingle (input_image_url : String) (textured_mesh : Bool)
  | hunyuanMulti (front_image_url back_image_url left_image_url : String) (format : String)
  | hunyuanSingleTurbo (image_url : String) (format : String)
  | hunyuanMultiTurbo (front_image_url back_image_url left_image_url : String) (format : String)
deriving DecidableEq, Repr

/-- One network interaction: an HTTP POST dispatched by `makeHTTPRequest`
(with the endpoint, the `Authorization: Key <apiKey>` credential, and the
shaped body), or a `curl` download performed by `downloadAndSave3DModel`. -/
inductive NetCall where
  | http (endpoint : String) (apiKey : String) (body : RequestBody)
  | download (url : String) (outputPath : String)
deriving DecidableEq, Repr

/-- The provider response fields the 3D functions inspect: an error or
detail payload, the mesh URL (`model_mesh.url` for trellis and hunyuan
single, `model_url` for the other hunyuan endpoints), and
`timings.inference`. -/
structure FalResponse where
  error : Option String := none
  detail : Option String := none
  model_mesh_url : Option String := none
  model_url : Option String := none
  inference : Option Nat := none
deriving DecidableEq, Repr

/-- Arguments of one `generateImage` call made by the reference-image
pipeline (model3dHelpers.ts lines 59-65). -/
structure ImageGenCall where
  provider : RefModel
  prompt : String
  outputPath : String
  size : Option String
  image_size : Option String
deriving DecidableEq, Repr

/-- Parsed result of the image-generation capability: the optional
`savedPaths` array of the returned JSON. -/
structure ImageGenResult where
  savedPaths : Option (List String)
deriving DecidableEq, Repr

/-- The external capabilities the orchestration layer calls out to,
excluding file deletion: the FAL credential environment variable, file
reads (as base64), the HTTP transport, the mesh download, `statSync`, and
the 2D image-generation capability (an external collaborator per the
spec, treated as an opaque function). -/
structure Caps where
  falKey : Option String
  readFileBase64 : String → Except String String
  http : String → String → RequestBody → Except String FalResponse
  downloadOk : String → String → Except String Unit
  statSize : String → Except String Nat
  generateImage : ImageGenCall → Except String ImageGenResult

/-- Full environment: capabilities plus `unlinkSync`, which only the
cleanup phase of `generate3DModel` uses. -/
structure Env where
  caps : Caps
  unlink : String → Except String Unit

/-- `encodeImageToBase64` (imageUtils.ts lines 98-105): read the file,
wrapping a read failure in a descriptive message. -/
def encodeImageToBase64 (caps : Caps) (imagePath : String) : Except String String :=
  match caps.readFileBase64 imagePath with
  | .ok data => .ok data
  | .error e => .error ("Failed to read image file " ++ imagePath ++ ": " ++ e)

/-- The inline conversion the 3D generate functions apply to each image
reference (e.g. model3dUtils.ts lines 359-367): a reference already
starting with `data:` passes through; otherwise the file is read and
wrapped as a PNG-labelled base64 data URI. -/
def pathToDataURI (caps : Caps) (p : String) : Except String String :=
  if jsStartsWith p "data:" then .ok p
  else
    match encodeImageToBase64 caps p with
    | .ok b64 => .ok ("data:image/png;base64," ++ b64)
    | .error e => .error e

/-- Fail-fast traversal: `Promise.all` over fallible conversions (the
whole list fails if any element fails, order preserved). -/
def mapExcept (f : α → Except String β) : List α → Except String (List β)
  | [] => .ok []
  | a :: as =>
    match f a with
    | .error e => .error e
    | .ok b =>
      match mapExcept f as with
      | .error e => .error e
      | .ok bs => .ok (b :: bs)

/-- `convertPathsToBase64URIs` (model3dUtils.ts lines 86-100): converts
every entry unconditionally — there is no `data:` passthrough here — and
wraps a per-entry failure in a fatal descriptive error. -/
def convertPathsToBase64URIs (caps : Caps) (paths : List String) :
    Except String (List String) :=
  mapExcept (fun imagePath =>
    match encodeImageToBase64 caps imagePath with
    | .ok base64Data => .ok ("data:image/png;base64," ++ base64Data)
    | .error e => .error ("Failed to convert image " ++ imagePath ++ " to base64 URI: " ++ e))
    paths

/-- Basic file info `getModel3DInfo` returns (vertex/face counts are left
unpopulated by the source). -/
structure ModelInfo where
  file_size : Nat
  format : String
deriving DecidableEq, Repr

/-- `Model3DGenerationResult` (model3dUtils.ts lines 59-77). -/
structure Model3DGenerationResult where
  provider : String
  model : String
  variant : String
  savedPaths : List String
  prompt_used : Option String
  input_images : List String
  generation_time : Option Nat
  model_info : Option ModelInfo
  parameters : RequestBody
  auto_generated_references : Option (List String) := none
  reference_model_used : Option String := none
  reference_views_generated : Option (List String) := none
deriving DecidableEq, Repr

/-- Message text of a provider error response: the source uses
`response.error?.message || JSON.stringify(response.detail || response.error)`;
the embedding keeps the error and detail payloads as plain strings. -/
def apiErrText (r : FalResponse) : String :=
  r.error.getD (r.detail.getD "")

/-- `getModel3DInfo` (model3dUtils.ts lines 120-140): `statSync` size plus
the extension-derived format tag. -/
def getModel3DInfo (caps : Caps) (modelPath : String) : Except String ModelInfo :=
  match caps.statSize modelPath with
  | .ok size => .ok ⟨size, modelFormatOf modelPath⟩
  | .error e => .error ("Failed to get 3D model info for " ++ modelPath ++ ": " ++ e)

/-- `downloadAndSave3DModel` (model3dUtils.ts lines 103-117): download the
mesh to the output path (directory creation is part of the capability);
on success the function returns the output path itself. -/
def downloadAndSave3DModel (caps : Caps) (modelUrl outputPath : String) :
    Except String String :=
  match caps.downloadOk modelUrl outputPath with
  | .ok _ => .ok outputPath
  | .error e =>
    .error ("Failed to download and save 3D model to " ++ outputPath ++ ": " ++ e)

/-! ## The six FAL.ai 3D generation functions (model3dUtils.ts).
Each returns the call's outcome together with the list of network
interactions it performed, in order. -/

/-- `trellisGenerate3DSingle` (model3dUtils.ts lines 145-207). -/
def trellisGenerate3DSingle (caps : Caps) (prompt : Option String) (imagePath : String)
    (outputPath : String) (format : Option Model3DFormat) (texture_size : Option Nat) :
    Except String Model3DGenerationResult × List NetCall :=
  match caps.falKey with
  | none => (.error "FAL_AI_API_KEY environment variable is required", [])
  | some apiKey =>
    match pathToDataURI caps imagePath with
    | .error e => (.error e, [])
    | .ok imageUri =>
      let body := RequestBody.trellisSingle imageUri (texture_size.getD 1024)
      let endpoint := "https://fal.run/fal-ai/trellis"
      match caps.http endpoint apiKey body with
      | .error e => (.error ("HTTP request failed: " ++ e), [.http endpoint apiKey body])
      | .ok response =>
        if response.error.isSome || response.detail.isSome then
          (.error ("Trellis API error: " ++ apiErrText response), [.http endpoint apiKey body])
        else
          match response.model_mesh_url with
          | none => (.error "No model mesh in Trellis response", [.http endpoint apiKey body])
          | some url =>
            match downloadAndSave3DModel caps url outputPath with
            | .error e => (.error e, [.http endpoint apiKey body, .download url outputPath])
            | .ok modelPath =>
              match getModel3DInfo caps outputPath with
              | .error e => (.error e, [.http endpoint apiKey body, .download url outputPath])
              | .ok modelInfo =>
                (.ok { provider := "FAL.ai", model := "trellis", variant := "single",
                       savedPaths := [modelPath], prompt_used := prompt,
                       input_images := [imagePath], generation_time := response.inference,
                       model_info := some modelInfo, parameters := body },
                 [.http endpoint apiKey body, .download url outputPath])

/-- `trellisGenerate3DMulti` (model3dUtils.ts lines 210-279). -/
def trellisGenerate3DMulti (caps : Caps) (prompt : Option String) (imagePaths : List String)
    (outputPath : String) (format : Option Model3DFormat) (texture_size : Option Nat)
    (multiimage_algo : Option String) :
    Except String Model3DGenerationResult × List NetCall :=
  match caps.falKey with
  | none => (.error "FAL_AI_API_KEY environment variable is required", [])
  | some apiKey =>
    match mapExcept (pathToDataURI caps) imagePaths with
    | .error e => (.error e, [])
    | .ok imageUris =>
      let body := RequestBody.trellisMulti imageUris (texture_size.getD 1024)
        (multiimage_algo.getD "stochastic")
      let endpoint := "https://fal.run/fal-ai/trellis/multi"
      match caps.http endpoint apiKey body with
      | .error e => (.error ("HTTP request failed: " ++ e), [.http endpoint apiKey body])
      | .ok response =>
        if response.error.isSome || response.detail.isSome then
          (.error ("Trellis Multi API error: " ++ apiErrText response),
           [.http endpoint apiKey body])
        else
          match response.model_mesh_url with
          | none => (.error "No model mesh in Trellis Multi response",
                     [.http endpoint apiKey body])
          | some url =>
            match downloadAndSave3DModel caps url outputPath with
            | .error e => (.error e, [.http endpoint apiKey body, .download url outputPath])
            | .ok modelPath =>
              match getModel3DInfo caps outputPath with
              | .error e => (.error e, [.http endpoint apiKey body, .download url outputPath])
              | .ok modelInfo =>
                (.ok { provider := "FAL.ai", model := "trellis", variant := "multi",
                       savedPaths := [modelPath], prompt_used := prompt,
                       input_images := imagePaths, generation_time := response.inference,
                       model_info := some modelInfo, parameters := body },
                 [.http endpoint apiKey body, .download url outputPath])

/-- `hunyuan3DGenerateSingle` (model3dUtils.ts lines 282-342). -/
def hunyuan3DGenerateSingle (caps : Caps) (prompt : Option String) (imagePath : String)
    (outputPath : String) (format : Option Model3DFormat) (textured_mesh : Option Bool) :
    Except String Model3DGenerationResult × List NetCall :=
  match caps.falKey with
  | none => (.error "FAL_AI_API_KEY environment variable is required", [])
  | some apiKey =>
    match pathToDataURI caps imagePath with
    | .error e => (.error e, [])
    | .ok imageUri =>
      let body := RequestBody.hunyuanSingle imageUri (textured_mesh.getD true)
      let endpoint := "https://fal.run/fal-ai/hunyuan3d/v2"
      match caps.http endpoint apiKey body with
      | .error e => (.error ("HTTP request failed: " ++ e), [.http endpoint apiKey body])
      | .ok response =>
        if response.error.isSome || response.detail.isSome then
          (.error ("Hunyuan3D API error: " ++ apiErrText response),
           [.http endpoint apiKey body])
        else
          match response.model_mesh_url with
          | none => (.error "No model mesh in Hunyuan3D response", [.http endpoint apiKey body])
          | some url =>
            match downloadAndSave3DModel caps url outputPath with
            | .error e => (.error e, [.http endpoint apiKey body, .download url outputPath])
            | .ok modelPath =>
              match getModel3DInfo caps outputPath with
              | .error e => (.error e, [.http endpoint apiKey body, .download url outputPath])
              | .ok modelInfo =>
                (.ok { provider := "FAL.ai", model := "hunyuan3d-2.0", variant := "single",
                       savedPaths := [modelPath], prompt_used := prompt,
                       input_images := [imagePath], generation_time := response.inference,
                       model_info := some modelInfo, parameters := body },
                 [.http endpoint apiKey body, .download url outputPath])

/-- `hunyuan3DGenerateMulti` (model3dUtils.ts lines 345-419).  The
insufficient-views check precedes the image conversion and every network
interaction. -/
def hunyuan3DGenerateMulti (caps : Caps) (prompt : Option String) (imagePaths : List String)
    (outputPath : String) (format : Option Model3DFormat) :
    Except String Model3DGenerationResult × List NetCall :=
  match caps.falKey with
  | none => (.error "FAL_AI_API_KEY environment variable is required", [])
  | some apiKey =>
    if imagePaths.length < 3 then
      (.error ("Hunyuan3D Multi requires at least 3 images (front, back, left views). Only "
        ++ toString imagePaths.length ++ " images provided."), [])
    else
      match mapExcept (pathToDataURI caps) imagePaths with
      | .error e => (.error e, [])
      | .ok imageUris =>
        let body := RequestBody.hunyuanMulti (imageUris.getD 0 "") (imageUris.getD 1 "")
          (imageUris.getD 2 "") (formatTag (format.getD .glb))
        let endpoint := "https://fal.run/fal-ai/hunyuan3d/v2/multi-view"
        match caps.http endpoint apiKey body with
        | .error e => (.error ("HTTP request failed: " ++ e), [.http endpoint apiKey body])
        | .ok response =>
          if response.error.isSome || response.detail.isSome then
            (.error ("Hunyuan3D Multi API error: " ++ apiErrText response),
             [.http endpoint apiKey body])
          else
            match response.model_url with
            | none => (.error "No model URL in Hunyuan3D Multi response",
                       [.http endpoint apiKey body])
            | some url =>
              match downloadAndSave3DModel caps url outputPath with
              | .error e => (.error e, [.http endpoint apiKey body, .download url outputPath])
              | .ok modelPath =>
                match getModel3DInfo caps outputPath with
                | .error e => (.error e,
                               [.http endpoint apiKey body, .download url outputPath])
                | .ok modelInfo =>
                  (.ok { provider := "FAL.ai", model := "hunyuan3d-2.0", variant := "multi",
                         savedPaths := [modelPath], prompt_used := prompt,
                         input_images := imagePaths, generation_time := response.inference,
                         model_info := some modelInfo, parameters := body },
                   [.http endpoint apiKey body, .download url outputPath])

/-- `hunyuan3DGenerateSingleTurbo` (model3dUtils.ts lines 422-478). -/
def hunyuan3DGenerateSingleTurbo (caps : Caps) (prompt : Option String) (imagePath : String)
    (outputPath : String) (format : Option Model3DFormat) :
    Except String Model3DGenerationResult × List NetCall :=
  match caps.falKey with
  | none => (.error "FAL_AI_API_KEY environment variable is required", [])
  | some apiKey =>
    match pathToDataURI caps imagePath with
    | .error e => (.error e, [])
    | .ok imageUri =>
      let body := RequestBody.hunyuanSingleTurbo imageUri (formatTag (format.getD .glb))
      let endpoint := "https://fal.run/fal-ai/hunyuan3d/v2/turbo"
      match caps.http endpoint apiKey body with
      | .error e => (.error ("HTTP request failed: " ++ e), [.http endpoint apiKey body])
      | .ok response =>
        if response.error.isSome || response.detail.isSome then
          (.error ("Hunyuan3D Turbo API error: " ++ apiErrText response),
           [.http endpoint apiKey body])
        else
          match response.model_url with
          | none => (.error "No model URL in Hunyuan3D Turbo response",
                     [.http endpoint apiKey body])
          | some url =>
            match downloadAndSave3DModel caps url outputPath with
            | .error e => (.error e, [.http endpoint apiKey body, .download url outputPath])
            | .ok modelPath =>
              match getModel3DInfo caps outputPath with
              | .error e => (.error e, [.http endpoint apiKey body, .download url outputPath])
              | .ok modelInfo =>
                (.ok { provider := "FAL.ai", model := "hunyuan3d-2.0",
                       variant := "single-turbo",
                       savedPaths := [modelPath], prompt_used := prompt,
                       input_images := [imagePath], generation_time := response.inference,
                       model_info := some modelInfo, parameters := body },
                 [.http endpoint apiKey body, .download url outputPath])

/-- `hunyuan3DGenerateMultiTurbo` (model3dUtils.ts lines 481-555).  Same
insufficient-views guard as the non-turbo multi variant, before any
network interaction. -/
def hunyuan3DGenerateMultiTurbo (caps : Caps) (prompt : Option String)
    (imagePaths : List String) (outputPath : String) (format : Option Model3DFormat) :
    Except String Model3DGenerationResult × List NetCall :=
  match caps.falKey with
  | none => (.error "FAL_AI_API_KEY environment variable is required", [])
  | some apiKey =>
    if imagePaths.length < 3 then
      (.error ("Hunyuan3D Multi Turbo requires at least 3 images (front, back, left views). Only "
        ++ toString imagePaths.length ++ " images provided."), [])
    else
      match mapExcept (pathToDataURI caps) imagePaths with
      | .error e => (.error e, [])
      | .ok imageUris =>
        let body := RequestBody.hunyuanMultiTurbo (imageUris.getD 0 "") (imageUris.getD 1 "")
          (imageUris.getD 2 "") (formatTag (format.getD .glb))
        let endpoint := "https://fal.run/fal-ai/hunyuan3d/v2/multi-view/turbo"
        match caps.http endpoint apiKey body with
        | .error e => (.error ("HTTP request failed: " ++ e), [.http endpoint apiKey body])
        | .ok response =>
          if response.error.isSome || response.detail.isSome then
            (.error ("Hunyuan3D Multi Turbo API error: " ++ apiErrText response),
             [.http endpoint apiKey body])
          else
            match response.model_url with
            | none => (.error "No model URL in Hunyuan3D Multi Turbo response",
                       [.http endpoint apiKey body])
            | some url =>
              match downloadAndSave3DModel caps url outputPath with
              | .error e => (.error e, [.http endpoint apiKey body, .download url outputPath])
              | .ok modelPath =>
                match getModel3DInfo caps outputPath with
                | .error e => (.error e,
                               [.http endpoint apiKey body, .download url outputPath])
                | .ok modelInfo =>
                  (.ok { provider := "FAL.ai", model := "hunyuan3d-2.0",
                         variant := "multi-turbo",
                         savedPaths := [modelPath], prompt_used := prompt,
                         input_images := imagePaths, generation_time := response.inference,
                         model_info := some modelInfo, parameters := body },
                   [.http endpoint apiKey body, .download url outputPath])

/-! ## Reference image pipeline (model3dHelpers.ts lines 24-78) -/

/-- The augmented prompt built for one viewpoint (model3dHelpers.ts lines
35-56): base prompt, viewpoint label, fixed boilerplate, then the
viewpoint-specific clause. -/
def viewPrompt (prompt : String) (view : View) : String :=
  let base := prompt ++ ", " ++ viewTag view ++ " view, " ++
    "technical reference image, clean white background, " ++
    "professional 3D modeling reference, consistent lighting, " ++
    "detailed but clear, suitable for 3D reconstruction"
  base ++
    (match view with
     | .front => ", front-facing view showing main features and proportions"
     | .back => ", rear view showing back details and construction"
     | .top => ", overhead view showing top layout and proportions"
     | .left => ", left side profile showing side details and proportions"
     | .right => ", right side profile showing opposite side details")

/-- The `generateImage` call built for one viewpoint (model3dHelpers.ts
lines 33, 59-65): per-view output path `<base>_ref_<view>.png`, the
`size` option only for openai, the `image_size` option only for falai. -/
def mkImageGenCall (model : RefModel) (prompt outputBasePath : String) (view : View) :
    ImageGenCall :=
  { provider := model
    prompt := viewPrompt prompt view
    outputPath := replaceFinalExt outputBasePath ("_ref_" ++ viewTag view ++ ".png")
    size := if model = .openai then some "1024x1024" else none
    image_size := if model = .falai then some "square_hd" else none }

/-- `generateReferenceImages` (model3dHelpers.ts lines 24-78): iterate the
viewpoints in order; on a successful generation whose parsed result has a
non-empty `savedPaths`, append those paths; on a failed generation (or a
missing `savedPaths`) log and continue.  The function never raises, which
the embedding reflects by returning a plain list. -/
def generateReferenceImages (gen : ImageGenCall → Except String ImageGenResult)
    (prompt : String) (outputBasePath : String)
    (views : List View := [.front, .back, .top])
    (model : RefModel := .gemini) : List String :=
  views.foldl
    (fun referencePaths view =>
      match gen (mkImageGenCall model prompt outputBasePath view) with
      | .ok parsedResult =>
        match parsedResult.savedPaths with
        | some ps => if 0 < ps.length then referencePaths ++ ps else referencePaths
        | none => referencePaths
      | .error _ => referencePaths)
    []

/-- The saved paths one viewpoint contributes: the successful call's
non-empty `savedPaths`, or nothing on failure.  Used to state that the
pipeline's output is exactly the per-viewpoint successes in order. -/
def viewRefPaths (gen : ImageGenCall → Except String ImageGenResult)
    (prompt outputBasePath : String) (model : RefModel) (view : View) : List String :=
  match gen (mkImageGenCall model prompt outputBasePath view) with
  | .ok parsedResult =>
    match parsedResult.savedPaths with
    | some ps => if 0 < ps.length then ps else []
    | none => []
  | .error _ => []

/-! ## generate3DModel (model3dHelpers.ts lines 99-233) -/

/-- What `generate3DModel` did during one call, for the claims about when
reference synthesis runs, what gets dispatched, and what gets cleaned up:
the reference-synthesis invocations (prompt, base path, views, image
model), the synthesized paths, the (family, variant) pairs dispatched,
the network interactions, the deletions attempted by the cleanup phase
and the deletions that failed (which the source only logs). -/
structure GenTrace where
  refSynthCalls : List (String × String × List View × RefModel) := []
  synthesizedPaths : List String := []
  dispatched : List (Model3DModel × Model3DVariant) := []
  netCalls : List NetCall := []
  unlinkAttempts : List String := []
  unlinkFailures : List String := []
deriving Repr

/-- The `switch (model)` dispatch of `generate3DModel` (model3dHelpers.ts
lines 149-209): trellis uses the single function exactly when the actual
variant is `single` and the multi function otherwise; hunyuan3d branches
on all four variants.  Single-input functions receive
`finalInputPaths[0]`, multi-input functions the whole list;
`texture_size`, `multiimage_algo` and `textured_mesh` are not passed and
take their defaults inside the leaf functions. -/
def dispatch3D (caps : Caps) (model : Model3DModel) (actualVariant : Model3DVariant)
    (prompt : Option String) (finalInputPaths : List String) (outputPath : String)
    (format : Model3DFormat) : Except String Model3DGenerationResult × List NetCall :=
  match model with
  | .trellis =>
    if actualVariant = .single then
      trellisGenerate3DSingle caps prompt (finalInputPaths.getD 0 "") outputPath
        (some format) none
    else
      trellisGenerate3DMulti caps prompt finalInputPaths outputPath (some format) none none
  | .hunyuan3d =>
    match actualVariant with
    | .single =>
      hunyuan3DGenerateSingle caps prompt (finalInputPaths.getD 0 "") outputPath
        (some format) none
    | .multi =>
      hunyuan3DGenerateMulti caps prompt finalInputPaths outputPath (some format)
    | .singleTurbo =>
      hunyuan3DGenerateSingleTurbo caps prompt (finalInputPaths.getD 0 "") outputPath
        (some format)
    | .multiTurbo =>
      hunyuan3DGenerateMultiTurbo caps prompt finalInputPaths outputPath (some format)

/-- The `try` block of `generate3DModel` (model3dHelpers.ts lines
102-218), before the `finally` cleanup: option destructuring with
defaults, automatic reference synthesis when no input images were
supplied, the two fatal no-input checks, variant resolution, dispatch,
and provenance metadata attachment. -/
def generate3DModelCore (caps : Caps) (options : ExtOptions) :
    Except String Model3DGenerationResult × GenTrace :=
  let inputImagePaths := options.inputImagePaths.getD []
  let format := options.format.getD .glb
  let autoGenerateReferences := options.autoGenerateReferences.getD true
  let referenceModel := options.referenceModel.getD .gemini
  let referenceViews := options.referenceViews.getD [.front, .back, .top]
  let doSynth := inputImagePaths.isEmpty && strTruthy options.prompt
    && autoGenerateReferences
  let synthViews :=
    if (options.variant.map variantIncludesMulti).getD false then referenceViews
    else [View.front]
  let outputBasePath := replaceFinalExt options.outputPath ""
  let generatedReferences :=
    if doSynth then
      generateReferenceImages caps.generateImage (options.prompt.getD "") outputBasePath
        synthViews referenceModel
    else []
  let refSynthCalls :=
    if doSynth then
      [(options.prompt.getD "", outputBasePath, synthViews, referenceModel)]
    else []
  let finalInputPaths := if doSynth then generatedReferences else inputImagePaths
  let tr0 : GenTrace :=
    { refSynthCalls := refSynthCalls, synthesizedPaths := generatedReferences }
  if doSynth ∧ generatedReferences.isEmpty then
    (.error "Failed to generate reference images automatically", tr0)
  else if finalInputPaths.isEmpty then
    (.error "At least one input image is required for 3D model generation", tr0)
  else
    let actualVariant :=
      options.variant.getD (selectModelVariant options.model finalInputPaths.length)
    let dc := dispatch3D caps options.model actualVariant options.prompt
      finalInputPaths options.outputPath format
    let tr1 := { tr0 with dispatched := [(options.model, actualVariant)],
                          netCalls := dc.2 }
    match dc.1 with
    | .error e => (.error e, tr1)
    | .ok result =>
      if generatedReferences.length > 0 then
        (.ok { result with
                 auto_generated_references := some generatedReferences
                 reference_model_used := some (refModelTag referenceModel)
                 reference_views_generated := some (referenceViews.map viewTag) }, tr1)
      else
        (.ok result, tr1)

/-- `generate3DModel` (model3dHelpers.ts lines 99-233): the `try` body
followed by the `finally` cleanup, which runs on success and on failure
alike: when cleanup is requested and references were synthesized, each
synthesized file is unlinked, and an unlink failure is only logged (here:
recorded in the trace), never raised. -/
def generate3DModel (env : Env) (options : ExtOptions) :
    Except String Model3DGenerationResult × GenTrace :=
  let c := generate3DModelCore env.caps options
  let cleanupReferences := options.cleanupReferences.getD true
  if cleanupReferences && c.2.synthesizedPaths.length > 0 then
    (c.1, { c.2 with
              unlinkAttempts := c.2.synthesizedPaths
              unlinkFailures := c.2.synthesizedPaths.filter
                (fun p => match env.unlink p with | .error _ => true | .ok _ => false) })
  else
    (c.1, c.2)

/-! ## Validation, defaults merging entry point (model3dHelpers.ts lines 236-318) -/

/-- `validate3DModelOptions` (model3dHelpers.ts lines 236-262), checks in
source order.  The model and variant membership checks of the source test
the tag string against the full allow-lists; over the closed enums of the
embedding they always pass and are kept as the corresponding membership
tests. -/
def validate3DModelOptions (options : ExtOptions) : Except String Unit :=
  if ((jsTrim options.outputPath).length = 0 : Bool) then
    .error "Output path is required and cannot be empty"
  else if !(["trellis", "hunyuan3d"].contains (modelTag options.model)) then
    .error "Model must be one of: trellis, hunyuan3d"
  else if (options.variant.map (fun v =>
      !(["single", "multi", "single-turbo", "multi-turbo"].contains (variantTag v)))).getD
      false then
    .error "Variant must be one of: single, multi, single-turbo, multi-turbo"
  else if (options.format.map (fun f =>
      !(["glb", "gltf"].contains (formatTag f)))).getD false then
    .error "Format must be one of: glb, gltf"
  else if options.model = .trellis
      && (options.variant.map variantIncludesTurbo).getD false then
    .error "Trellis model does not support turbo variants"
  else if (options.inputImagePaths.getD []).isEmpty && !(strTruthy options.prompt) then
    .error "Either input images or a prompt is required for 3D model generation"
  else
    .ok ()

/-- The options object `generate3DModelSmart` builds before merging
(model3dHelpers.ts lines 307-313): the literal
`{prompt, outputPath, model, variant: 'multi', ...options}` — a key
present in the spread `options` overrides the literal's entry. -/
def smartBaseOptions (prompt outputPath : String) (model : Model3DModel)
    (options : PartialOptions) : ExtOptions :=
  { prompt := options.prompt <|> some prompt
    inputImagePaths := options.inputImagePaths
    outputPath := options.outputPath.getD outputPath
    model := options.model.getD model
    variant := options.variant <|> some .multi
    format := options.format
    quality := options.quality
    textured_mesh := options.textured_mesh
    autoGenerateReferences := options.autoGenerateReferences
    referenceModel := options.referenceModel
    referenceViews := options.referenceViews
    cleanupReferences := options.cleanupReferences }

/-- `generate3DModelSmart` (model3dHelpers.ts lines 301-318): merge with
defaults, validate, then generate; a validation failure raises before
`generate3DModel` is entered, so the trace is empty. -/
def generate3DModelSmart (env : Env) (prompt outputPath : String)
    (model : Model3DModel := .hunyuan3d) (options : PartialOptions := {}) :
    Except String Model3DGenerationResult × GenTrace :=
  let fullOptions := merge3DWithDefaults (smartBaseOptions prompt outputPath model options)
  match validate3DModelOptions fullOptions with
  | .error e => (.error e, {})
  | .ok _ => generate3DModel env fullOptions

/-! ## Concrete environments and inputs used by witnesses and counterexamples -/

/-- Image-generation oracle that saves exactly one file per call. -/
def genImageOnePath : ImageGenCall → Except String ImageGenResult :=
  fun c => .ok ⟨some [c.outputPath]⟩

/-- Image-generation oracle that reports three saved files for one call
(the capability returns a list of saved paths; nothing bounds it to 1). -/
def genImageThreePaths : ImageGenCall → Except String ImageGenResult :=
  fun c => .ok ⟨some [c.outputPath ++ "_a", c.outputPath ++ "_b", c.outputPath ++ "_c"]⟩

/-- Image-generation oracle that fails exactly for the back viewpoint of
base path "m.png" and saves one file per call otherwise. -/
def genImageBackFails : ImageGenCall → Except String ImageGenResult :=
  fun c =>
    if c.outputPath = "m_ref_back.png" then .error "generation failed"
    else .ok ⟨some [c.outputPath]⟩

/-- A provider response carrying a mesh URL and no error payload. -/
def okResponse : FalResponse :=
  { model_mesh_url := some "https://cdn.example/mesh.glb"
    model_url := some "https://cdn.example/mesh.glb" }

/-- Capabilities with the FAL key present, file reads succeeding, and the
given image-generation and HTTP oracles. -/
def mkCaps (gen : ImageGenCall → Except String ImageGenResult)
    (http : String → String → RequestBody → Except String FalResponse) : Caps :=
  { falKey := some "FKEY"
    readFileBase64 := fun _ => .ok "QUJD"
    http := http
    downloadOk := fun _ _ => .ok ()
    statSize := fun _ => .ok 3
    generateImage := gen }

def httpOk : String → String → RequestBody → Except String FalResponse :=
  fun _ _ _ => .ok okResponse

def httpFail : String → String → RequestBody → Except String FalResponse :=
  fun _ _ _ => .error "connection refused"

def capsA : Caps := mkCaps genImageOnePath httpOk

def capsThree : Caps := mkCaps genImageThreePaths httpOk

def capsBackFails : Caps := mkCaps genImageBackFails httpOk

def capsHttpFail : Caps := mkCaps genImageOnePath httpFail

/-- Environment whose single front-view synthesis yields three saved
paths; used to exercise variant resolution after synthesis. -/
def envThree : Env := ⟨capsThree, fun _ => .ok ()⟩

/-- Environment in which the 3D dispatch fails and deletions fail. -/
def envUnlinkFail : Env := ⟨capsHttpFail, fun _ => .error "EPERM"⟩

/-- Same capabilities as `envUnlinkFail` but deletions succeed. -/
def envUnlinkOk : Env := ⟨capsHttpFail, fun _ => .ok ()⟩

/-- A minimal request: prompt and output path only, hunyuan3d family. -/
def optsPrompt : ExtOptions :=
  { prompt := some "sword", outputPath := "out.glb", model := .hunyuan3d }

/-- A request with some fields user-set, for the merge witness. -/
def optsMergeW : ExtOptions :=
  { prompt := some "p", outputPath := "o.glb", model := .trellis, variant := some .single }

/-- A 2-by-1 test image: a white pixel and a dark pixel. -/
def imgTest : Image := ⟨2, 1, [⟨255, 255, 255, 255⟩, ⟨10, 20, 30, 40⟩]⟩

/-- Claim C5 read literally: for every dispatched (family, resolved
variant) pair, the views passed to reference synthesis were all requested
viewpoints if that resolved variant is multi-image, and just the front
viewpoint otherwise. -/
def resolvedVariantViewsClaim (env : Env) (options : ExtOptions) : Prop :=
  ∀ mv ∈ (generate3DModel env options).2.dispatched,
    ∀ c ∈ (generate3DModel env options).2.refSynthCalls,
      c.2.2.1 =
        if variantIncludesMulti mv.2 = true
        then options.referenceViews.getD [.front, .back, .top]
        else [View.front]

/-! ## Helper lemmas -/

/-- For an integer squared distance and an integer tolerance, the real
comparison `sqrt d ≤ t` coincides with `d ≤ t ^ 2`. -/
theorem sqrt_cast_le_iff (d : Int) (t : Nat) :
    Real.sqrt (d : ℝ) ≤ (t : ℝ) ↔ d ≤ (t : Int) ^ 2 := by
  have h1 : Real.sqrt (d : ℝ) ≤ (t : ℝ) ↔ (d : ℝ) ≤ (t : ℝ) ^ 2 :=
    Real.sqrt_le_left (by positivity)
  rw [h1]
  constructor
  · intro h; exact_mod_cast h
  · intro h; exact_mod_cast h

theorem mapExcept_ok_length {α β : Type} (f : α → Except String β) :
    ∀ (l : List α) (l2 : List β), mapExcept f l = .ok l2 → l2.length = l.length := by
  intro l
  induction l with
  | nil => intro l2 h; simp [mapExcept] at h; simp [← h]
  | cons a as ih =>
    intro l2 h
    simp only [mapExcept] at h
    cases hfa : f a with
    | error e => rw [hfa] at h; simp at h
    | ok b =>
      rw [hfa] at h
      cases hrec : mapExcept f as with
      | error e => rw [hrec] at h; simp at h
      | ok bs =>
        rw [hrec] at h
        simp at h
        simp [← h, ih bs hrec]

theorem mapExcept_ok_getElem? {α β : Type} (f : α → Except String β) :
    ∀ (l : List α) (l2 : List β), mapExcept f l = .ok l2 →
      ∀ (i : Nat) (a : α), l[i]? = some a → ∃ b, f a = .ok b ∧ l2[i]? = some b := by
  intro l
  induction l with
  | nil => intro l2 h i a ha; simp at ha
  | cons x xs ih =>
    intro l2 h i a ha
    simp only [mapExcept] at h
    cases hfa : f x with
    | error e => rw [hfa] at h; simp at h
    | ok b =>
      rw [hfa] at h
      cases hrec : mapExcept f xs with
      | error e => rw [hrec] at h; simp at h
      | ok bs =>
        rw [hrec] at h
        simp at h
        cases i with
        | zero => simp at ha; subst ha; exact ⟨b, hfa, by simp [← h]⟩
        | succ j =>
          simp at ha
          obtain ⟨b2, hb2, hidx⟩ := ih bs hrec j a ha
          exact ⟨b2, hb2, by simp [← h, hidx]⟩

theorem foldl_append_join {α β : Type} (g : List β → α → List β) (f : α → List β)
    (hg : ∀ acc v, g acc v = acc ++ f v) :
    ∀ (l : List α) (acc : List β), l.foldl g acc = acc ++ (l.map f).flatten := by
  intro l
  induction l with
  | nil => intro acc; simp
  | cons v vs ih => intro acc; simp [hg, ih, List.append_assoc]

/-! ## Claim theorems -/

/-- C2: for every family and every input-image count, `selectModelVariant`
returns a single-image variant exactly when the count is at most 1 and a
multi-image variant exactly when it exceeds 1; with `preferTurbo` it
returns the accelerated counterpart of that arity for hunyuan3d, and it
never returns an accelerated variant for trellis. -/
theorem claim_C2_selectModelVariant (model : Model3DModel) (n : Nat) (preferFast : Bool) :
    variantIsSingleImage (selectModelVariant model n preferFast) = decide (n ≤ 1)
    ∧ variantIncludesMulti (selectModelVariant model n preferFast) = decide (1 < n)
    ∧ selectModelVariant .hunyuan3d n true
        = turboCounterpart (selectModelVariant .hunyuan3d n false)
    ∧ selectModelVariant .hunyuan3d n false
        = (if n ≤ 1 then .single else .multi)
    ∧ variantIncludesTurbo (selectModelVariant .trellis n preferFast) = false := by
  cases model <;> cases preferFast <;> by_cases h : n ≤ 1 <;>
    simp [selectModelVariant, variantIsSingleImage, variantIncludesMulti,
      variantIncludesTurbo, turboCounterpart, h] <;> omega

/-- C6: merging user options with the per-family defaults keeps every
user-present key at the user's value, fills every user-absent key that the
defaults table provides with the default value, and leaves keys absent
from both (prompt, input image paths, quality, textured_mesh) unset. -/
theorem claim_C6_merge3DWithDefaults (options : ExtOptions) :
    let m := merge3DWithDefaults options
    let d := getDefault3DOptions options.model
    m.outputPath = options.outputPath
    ∧ m.model = options.model
    ∧ (∀ v, options.prompt = some v → m.prompt = some v)
    ∧ (options.prompt = none → m.prompt = d.prompt)
    ∧ d.prompt = none
    ∧ (∀ v, options.inputImagePaths = some v → m.inputImagePaths = some v)
    ∧ (options.inputImagePaths = none → m.inputImagePaths = d.inputImagePaths)
    ∧ d.inputImagePaths = none
    ∧ (∀ v, options.variant = some v → m.variant = some v)
    ∧ (options.variant = none → m.variant = d.variant)
    ∧ (∀ v, options.format = some v → m.format = some v)
    ∧ (options.format = none → m.format = d.format)
    ∧ (∀ v, options.quality = some v → m.quality = some v)
    ∧ (options.quality = none → m.quality = d.quality)
    ∧ d.quality = none
    ∧ (∀ v, options.textured_mesh = some v → m.textured_mesh = some v)
    ∧ (options.textured_mesh = none → m.textured_mesh = d.textured_mesh)
    ∧ d.textured_mesh = none
    ∧ (∀ v, options.autoGenerateReferences = some v → m.autoGenerateReferences = some v)
    ∧ (options.autoGenerateReferences = none → m.autoGenerateReferences = d.autoGenerateReferences)
    ∧ (∀ v, options.referenceModel = some v → m.referenceModel = some v)
    ∧ (options.referenceModel = none → m.referenceModel = d.referenceModel)
    ∧ (∀ v, options.referenceViews = some v → m.referenceViews = some v)
    ∧ (options.referenceViews = none → m.referenceViews = d.referenceViews)
    ∧ (∀ v, options.cleanupReferences = some v → m.cleanupReferences = some v)
    ∧ (options.cleanupReferences = none → m.cleanupReferences = d.cleanupReferences) := by
  rcases options with ⟨p, ipp, op, mo, va, fo, qu, tm, ag, rm, rv, cr⟩
  cases mo <;>
    refine ⟨?_, ?_, ?_, ?_, ?_, ?_, ?_, ?_, ?_, ?_, ?_, ?_, ?_, ?_, ?_, ?_, ?_, ?_,
      ?_, ?_, ?_, ?_, ?_, ?_, ?_, ?_⟩ <;>
    (intros; subst_eqs; rfl)

/-- C4: the reference-image pipeline never raises: its result is exactly
the concatenation, in viewpoint order, of the saved paths of the
successful viewpoints; in particular with viewpoints front, back, top
where the back generation fails and the others save one file each, the
result is exactly the front path followed by the top path. -/
theorem claim_C4_generateReferenceImages
    (gen : ImageGenCall → Except String ImageGenResult)
    (prompt outputBasePath : String) (model : RefModel) (views : List View) :
    generateReferenceImages gen prompt outputBasePath views model
      = (views.map (viewRefPaths gen prompt outputBasePath model)).flatten
    ∧ (∀ pf pt e,
        gen (mkImageGenCall model prompt outputBasePath .front) = .ok ⟨some [pf]⟩ →
        gen (mkImageGenCall model prompt outputBasePath .back) = .error e →
        gen (mkImageGenCall model prompt outputBasePath .top) = .ok ⟨some [pt]⟩ →
        generateReferenceImages gen prompt outputBasePath [.front, .back, .top] model
          = [pf, pt]) := by
  have hg : ∀ (acc : List String) (view : View),
      (fun referencePaths view =>
        match gen (mkImageGenCall model prompt outputBasePath view) with
        | .ok parsedResult =>
          match parsedResult.savedPaths with
          | some ps => if 0 < ps.length then referencePaths ++ ps else referencePaths
          | none => referencePaths
        | .error _ => referencePaths) acc view
      = acc ++ viewRefPaths gen prompt outputBasePath model view := by
    intro acc view
    unfold viewRefPaths
    cases hge : gen (mkImageGenCall model prompt outputBasePath view) with
    | error e => simp [hge]
    | ok r =>
      cases hsp : r.savedPaths with
      | none => simp [hge, hsp]
      | some ps =>
        by_cases hps : 0 < ps.length <;> simp [hge, hsp, hps]
  constructor
  · unfold generateReferenceImages
    exact foldl_append_join _ _ hg views []
  · intro pf pt e hf hb ht
    unfold generateReferenceImages
    simp [hf, hb, ht]

/-- C7: the converter's target color is (255,255,255) for white mode,
(0,0,0) for black mode, and for auto mode the per-channel rounded average
of the four corner pixels (`Math.round` rounds half up, within 1/2 of the
exact average); for a 1-by-1 image all four corner samples are the single
pixel, so the auto target equals that pixel's RGB. -/
theorem claim_C7_targetColor (img : Image) (hw : 0 < img.width) (hh : 0 < img.height)
    (hlen : img.pixels.length = img.width * img.height) :
    targetColor .white img = (255, 255, 255)
    ∧ targetColor .black img = (0, 0, 0)
    ∧ (∃ c1 c2 c3 c4,
        img.pixels[0]? = some c1
        ∧ img.pixels[img.width - 1]? = some c2
        ∧ img.pixels[(img.height - 1) * img.width]? = some c3
        ∧ img.pixels[(img.height - 1) * img.width + (img.width - 1)]? = some c4
        ∧ targetColor .auto img
            = (jsRoundDiv4 (c1.r + c2.r + c3.r + c4.r),
               jsRoundDiv4 (c1.g + c2.g + c3.g + c4.g),
               jsRoundDiv4 (c1.b + c2.b + c3.b + c4.b)))
    ∧ (∀ s : Nat, (4 * (jsRoundDiv4 s) : Int) - s ≤ 2 ∧ (s : Int) - 4 * (jsRoundDiv4 s) ≤ 2
        ∧ (s % 4 = 2 → jsRoundDiv4 s * 4 = s + 2))
    ∧ (∀ p : Pixel, img.pixels = [p] → targetColor .auto img = (p.r, p.g, p.b)) := by
  have h1 : 0 < img.pixels.length := by rw [hlen]; exact Nat.mul_pos hw hh
  have hwle : img.width ≤ img.width * img.height := Nat.le_mul_of_pos_right _ hh
  have h2 : img.width - 1 < img.pixels.length := by rw [hlen]; omega
  have he : (img.height - 1) * img.width + img.width = img.height * img.width := by
    have hs : img.height - 1 + 1 = img.height := Nat.succ_pred_eq_of_pos hh
    calc (img.height - 1) * img.width + img.width
        = (img.height - 1 + 1) * img.width := by ring
    _ = img.height * img.width := by rw [hs]
  have he2 : img.height * img.width = img.width * img.height := Nat.mul_comm _ _
  have h4 : (img.height - 1) * img.width + (img.width - 1) < img.pixels.length := by
    rw [hlen]; omega
  have h3 : (img.height - 1) * img.width < img.pixels.length := by omega
  refine ⟨rfl, rfl, ?_, ?_, ?_⟩
  · refine ⟨img.pixels.getD 0 defaultPixel,
      img.pixels.getD (img.width - 1) defaultPixel,
      img.pixels.getD ((img.height - 1) * img.width) defaultPixel,
      img.pixels.getD ((img.height - 1) * img.width + (img.width - 1)) defaultPixel,
      ?_, ?_, ?_, ?_, ?_⟩
    · rw [List.getD_eq_getElem _ _ h1]; exact List.getElem?_eq_getElem h1
    · rw [List.getD_eq_getElem _ _ h2]; exact List.getElem?_eq_getElem h2
    · rw [List.getD_eq_getElem _ _ h3]; exact List.getElem?_eq_getElem h3
    · rw [List.getD_eq_getElem _ _ h4]; exact List.getElem?_eq_getElem h4
    · simp only [targetColor, pixelAt]
      norm_num
  · intro s
    refine ⟨?_, ?_, ?_⟩ <;> simp [jsRoundDiv4] <;> omega
  · intro p hp
    have hmul : img.width * img.height = 1 := by rw [← hlen, hp]; rfl
    have hw1 : img.width = 1 := Nat.eq_one_of_mul_eq_one_right hmul
    have hh1 : img.height = 1 := Nat.eq_one_of_mul_eq_one_left hmul
    have hq : ∀ n : Nat, jsRoundDiv4 (n + n + n + n) = n := by
      intro n; simp [jsRoundDiv4]; omega
    simp [targetColor, pixelAt, hp, hw1, hh1, hq]

/-- C7 witness: the hypotheses hold for the concrete 2-by-1 test image
and the white-mode target is (255,255,255) by the theorem. -/
theorem claim_C7_witness :
    0 < imgTest.width ∧ 0 < imgTest.height
    ∧ imgTest.pixels.length = imgTest.width * imgTest.height
    ∧ targetColor .white imgTest = (255, 255, 255) := by
  refine ⟨by decide, by decide, by decide, ?_⟩
  exact (claim_C7_targetColor imgTest (by decide) (by decide) (by decide)).1

/-- C1: for every image buffer, background mode and tolerance in [0,255],
the converter preserves width, height and pixel count, preserves every
pixel's RGB channels, zeroes the alpha of exactly the pixels whose
Euclidean RGB distance to the target is at most the tolerance, and leaves
the alpha of every other pixel unchanged; consequently if every pixel is
within tolerance the output is fully transparent, and at tolerance 0 with
no pixel exactly equal to the target every alpha is unchanged. -/
theorem claim_C1_convertTransparent (img : Image) (bg : BackgroundColor) (tolerance : Nat)
    (htol : tolerance ≤ 255) (hw : 0 < img.width) (hh : 0 < img.height)
    (hlen : img.pixels.length = img.width * img.height)
    (tR tG tB : Nat) (ht : targetColor bg img = (tR, tG, tB)) :
    (convertImagePixelsToTransparent img bg tolerance).width = img.width
    ∧ (convertImagePixelsToTransparent img bg tolerance).height = img.height
    ∧ (convertImagePixelsToTransparent img bg tolerance).pixels.length = img.pixels.length
    ∧ (∀ (i : Nat) (p : Pixel), img.pixels[i]? = some p →
        ∃ q : Pixel, (convertImagePixelsToTransparent img bg tolerance).pixels[i]? = some q
          ∧ q.r = p.r ∧ q.g = p.g ∧ q.b = p.b
          ∧ (Real.sqrt ((distSq p tR tG tB : Int) : ℝ) ≤ (tolerance : ℝ) → q.a = 0)
          ∧ (¬ Real.sqrt ((distSq p tR tG tB : Int) : ℝ) ≤ (tolerance : ℝ) → q.a = p.a))
    ∧ ((∀ (i : Nat) (p : Pixel), img.pixels[i]? = some p →
          Real.sqrt ((distSq p tR tG tB : Int) : ℝ) ≤ (tolerance : ℝ)) →
        ∀ (i : Nat) (q : Pixel), (convertImagePixelsToTransparent img bg tolerance).pixels[i]? = some q →
          q.a = 0)
    ∧ (tolerance = 0 →
        (∀ (i : Nat) (p : Pixel), img.pixels[i]? = some p → ¬(p.r = tR ∧ p.g = tG ∧ p.b = tB)) →
        ∀ (i : Nat) (p : Pixel), img.pixels[i]? = some p →
          ∃ q : Pixel, (convertImagePixelsToTransparent img bg tolerance).pixels[i]? = some q
            ∧ q.a = p.a) := by
  have hconv : (convertImagePixelsToTransparent img bg tolerance).pixels
      = img.pixels.map (transparentizePixel tR tG tB tolerance) := by
    simp [convertImagePixelsToTransparent, ht]
  have hbridge : ∀ p : Pixel,
      Real.sqrt ((distSq p tR tG tB : Int) : ℝ) ≤ (tolerance : ℝ)
        ↔ matchesTarget p tR tG tB tolerance = true := by
    intro p
    rw [matchesTarget, decide_eq_true_eq]
    exact sqrt_cast_le_iff _ _
  have hmain : ∀ (i : Nat) (p : Pixel), img.pixels[i]? = some p →
      ∃ q : Pixel, (convertImagePixelsToTransparent img bg tolerance).pixels[i]? = some q
        ∧ q.r = p.r ∧ q.g = p.g ∧ q.b = p.b
        ∧ (Real.sqrt ((distSq p tR tG tB : Int) : ℝ) ≤ (tolerance : ℝ) → q.a = 0)
        ∧ (¬ Real.sqrt ((distSq p tR tG tB : Int) : ℝ) ≤ (tolerance : ℝ) → q.a = p.a) := by
    intro i p hp
    refine ⟨transparentizePixel tR tG tB tolerance p, ?_, ?_, ?_, ?_, ?_, ?_⟩
    · rw [hconv, List.getElem?_map, hp]; rfl
    · unfold transparentizePixel; split <;> rfl
    · unfold transparentizePixel; split <;> rfl
    · unfold transparentizePixel; split <;> rfl
    · intro hs
      have hm := (hbridge p).mp hs
      simp [transparentizePixel, hm]
    · intro hns
      have hm : matchesTarget p tR tG tB tolerance = false := by
        cases hmt : matchesTarget p tR tG tB tolerance
        · rfl
        · exact absurd ((hbridge p).mpr hmt) hns
      simp [transparentizePixel, hm]
  refine ⟨rfl, rfl, by rw [hconv]; simp, hmain, ?_, ?_⟩
  · intro hall i q hq
    rw [hconv, List.getElem?_map] at hq
    obtain ⟨p, hp, hfq⟩ := Option.map_eq_some'.mp hq
    have hm := (hbridge p).mp (hall i p hp)
    rw [← hfq]
    simp [transparentizePixel, hm]
  · intro h0 hne i p hp
    subst h0
    refine ⟨transparentizePixel tR tG tB 0 p, by rw [hconv, List.getElem?_map, hp]; rfl, ?_⟩
    have hm : matchesTarget p tR tG tB 0 = false := by
      cases hmt : matchesTarget p tR tG tB 0
      · rfl
      · exfalso
        have hd : distSq p tR tG tB ≤ 0 := by
          have := hmt
          simp only [matchesTarget, decide_eq_true_eq] at this
          simpa using this
        unfold distSq at hd
        have s1 := sq_nonneg ((p.r : Int) - tR)
        have s2 := sq_nonneg ((p.g : Int) - tG)
        have s3 := sq_nonneg ((p.b : Int) - tB)
        have e1 : ((p.r : Int) - tR) ^ 2 = 0 := le_antisymm (by linarith) s1
        have e2 : ((p.g : Int) - tG) ^ 2 = 0 := le_antisymm (by linarith) s2
        have e3 : ((p.b : Int) - tB) ^ 2 = 0 := le_antisymm (by linarith) s3
        have z1 : (p.r : Int) - tR = 0 := by
          have := sq_eq_zero_iff.mp e1; exact this
        have z2 : (p.g : Int) - tG = 0 := by
          have := sq_eq_zero_iff.mp e2; exact this
        have z3 : (p.b : Int) - tB = 0 := by
          have := sq_eq_zero_iff.mp e3; exact this
        exact hne i p hp ⟨by omega, by omega, by omega⟩
    simp [transparentizePixel, hm]

/-- C1 witness: the hypotheses hold for the concrete 2-by-1 test image
with white mode, tolerance 10, target (255,255,255); pixel count is
preserved by the theorem. -/
theorem claim_C1_witness :
    10 ≤ 255 ∧ 0 < imgTest.width ∧ targetColor .white imgTest = (255, 255, 255)
    ∧ (convertImagePixelsToTransparent imgTest .white 10).pixels.length
        = imgTest.pixels.length := by
  refine ⟨by norm_num, by decide, by decide, ?_⟩
  exact (claim_C1_convertTransparent imgTest .white 10 (by norm_num) (by decide) (by decide)
    (by decide) 255 255 255 (by decide)).2.2.1

/-- C3: with the credential present, calling a Hunyuan3D multi-image
variant with fewer than 3 images fails with the insufficient-views error
and an empty network trace (no HTTP request is ever dispatched); with at
least 3 images whose conversion succeeds, every HTTP request either
variant dispatches carries the first three converted references in the
`front_image_url`, `back_image_url`, `left_image_url` fields, in input
order. -/
theorem claim_C3_hunyuanMultiViews (caps : Caps) (prompt : Option String)
    (imagePaths : List String) (outputPath : String) (format : Option Model3DFormat)
    (key : String) (hkey : caps.falKey = some key) :
    (imagePaths.length < 3 →
      hunyuan3DGenerateMulti caps prompt imagePaths outputPath format
        = (.error ("Hunyuan3D Multi requires at least 3 images (front, back, left views). Only "
            ++ toString imagePaths.length ++ " images provided."), [])
      ∧ hunyuan3DGenerateMultiTurbo caps prompt imagePaths outputPath format
        = (.error ("Hunyuan3D Multi Turbo requires at least 3 images (front, back, left views). Only "
            ++ toString imagePaths.length ++ " images provided."), []))
    ∧ (∀ uris : List String, 3 ≤ imagePaths.length →
        mapExcept (pathToDataURI caps) imagePaths = .ok uris →
        (∀ ep k b, NetCall.http ep k b
              ∈ (hunyuan3DGenerateMulti caps prompt imagePaths outputPath format).2 →
            b = RequestBody.hunyuanMulti (uris.getD 0 "") (uris.getD 1 "") (uris.getD 2 "")
                  (formatTag (format.getD .glb)))
        ∧ (∀ ep k b, NetCall.http ep k b
              ∈ (hunyuan3DGenerateMultiTurbo caps prompt imagePaths outputPath format).2 →
            b = RequestBody.hunyuanMultiTurbo (uris.getD 0 "") (uris.getD 1 "") (uris.getD 2 "")
                  (formatTag (format.getD .glb)))
        ∧ (∃ p0 p1 p2 : String,
            imagePaths[0]? = some p0 ∧ imagePaths[1]? = some p1 ∧ imagePaths[2]? = some p2
            ∧ pathToDataURI caps p0 = .ok (uris.getD 0 "")
            ∧ pathToDataURI caps p1 = .ok (uris.getD 1 "")
            ∧ pathToDataURI caps p2 = .ok (uris.getD 2 ""))) := by
  constructor
  · intro h3
    constructor
    · unfold hunyuan3DGenerateMulti
      rw [hkey]
      simp [h3]
    · unfold hunyuan3DGenerateMultiTurbo
      rw [hkey]
      simp [h3]
  · intro uris h3 hconv
    have hn3 : ¬ imagePaths.length < 3 := by omega
    have hul : uris.length = imagePaths.length := mapExcept_ok_length _ _ _ hconv
    refine ⟨?_, ?_, ?_⟩
    · intro ep k b
      unfold hunyuan3DGenerateMulti downloadAndSave3DModel getModel3DInfo
      rw [hkey]
      simp only [hn3, if_false, hconv]
      repeat' split
      all_goals intro hmem
      all_goals simp at hmem ⊢
      all_goals tauto
    · intro ep k b
      unfold hunyuan3DGenerateMultiTurbo downloadAndSave3DModel getModel3DInfo
      rw [hkey]
      simp only [hn3, if_false, hconv]
      repeat' split
      all_goals intro hmem
      all_goals simp at hmem ⊢
      all_goals tauto
    · have i0 : 0 < imagePaths.length := by omega
      have i1 : 1 < imagePaths.length := by omega
      have i2 : 2 < imagePaths.length := by omega
      obtain ⟨b0, hf0, hu0⟩ := mapExcept_ok_getElem? _ _ _ hconv 0 imagePaths[0]
        (List.getElem?_eq_getElem i0)
      obtain ⟨b1, hf1, hu1⟩ := mapExcept_ok_getElem? _ _ _ hconv 1 imagePaths[1]
        (List.getElem?_eq_getElem i1)
      obtain ⟨b2, hf2, hu2⟩ := mapExcept_ok_getElem? _ _ _ hconv 2 imagePaths[2]
        (List.getElem?_eq_getElem i2)
      have g0 : uris.getD 0 "" = b0 := by
        have hl0 : 0 < uris.length := by omega
        rw [List.getD_eq_getElem _ _ hl0]
        rw [List.getElem?_eq_getElem hl0] at hu0
        exact Option.some.inj hu0
      have g1 : uris.getD 1 "" = b1 := by
        have hl1 : 1 < uris.length := by omega
        rw [List.getD_eq_getElem _ _ hl1]
        rw [List.getElem?_eq_getElem hl1] at hu1
        exact Option.some.inj hu1
      have g2 : uris.getD 2 "" = b2 := by
        have hl2 : 2 < uris.length := by omega
        rw [List.getD_eq_getElem _ _ hl2]
        rw [List.getElem?_eq_getElem hl2] at hu2
        exact Option.some.inj hu2
      exact ⟨imagePaths[0], imagePaths[1], imagePaths[2],
        List.getElem?_eq_getElem i0, List.getElem?_eq_getElem i1,
        List.getElem?_eq_getElem i2,
        by rw [g0]; exact hf0, by rw [g1]; exact hf1, by rw [g2]; exact hf2⟩

/-- C3 witness: with the concrete capabilities (credential present) and a
two-image list, the non-turbo multi call returns the insufficient-views
error with an empty network trace, by the theorem. -/
theorem claim_C3_witness :
    capsA.falKey = some "FKEY"
    ∧ (["a.png", "b.png"] : List String).length < 3
    ∧ hunyuan3DGenerateMulti capsA none ["a.png", "b.png"] "o.glb" none
      = (.error ("Hunyuan3D Multi requires at least 3 images (front, back, left views). Only "
          ++ toString (["a.png", "b.png"] : List String).length ++ " images provided."), []) :=
  ⟨rfl, by decide,
    ((claim_C3_hunyuanMultiViews capsA none ["a.png", "b.png"] "o.glb" none "FKEY" rfl).1
      (by decide)).1⟩

/-- C4 witness: with the oracle that fails exactly on the back view of
base path "m.png", the pipeline over front, back, top returns exactly the
front path followed by the top path, by the theorem. -/
theorem claim_C4_witness :
    genImageBackFails (mkImageGenCall .gemini "m" "m.png" .front)
      = .ok ⟨some ["m_ref_front.png"]⟩
    ∧ generateReferenceImages genImageBackFails "m" "m.png" [.front, .back, .top] .gemini
      = ["m_ref_front.png", "m_ref_top.png"] := by
  have h := (claim_C4_generateReferenceImages genImageBackFails "m" "m.png" .gemini
    [.front, .back, .top]).2 "m_ref_front.png" "m_ref_top.png" "generation failed"
    (by rfl) (by rfl) (by rfl)
  exact ⟨by rfl, h⟩

/-- C6 witness: for a concrete trellis request with an explicit variant
and no format, the merge keeps the user's variant, fills the default
format, and leaves quality unset, by the theorem. -/
theorem claim_C6_witness :
    (merge3DWithDefaults optsMergeW).variant = some Model3DVariant.single
    ∧ (merge3DWithDefaults optsMergeW).format = some Model3DFormat.glb
    ∧ (merge3DWithDefaults optsMergeW).quality = none := by
  obtain ⟨h1, h2, h3, h4, h5, h6, h7, h8, h9, h10, h11, h12, h13, h14, h15, h16, h17,
    h18, h19, h20, h21, h22, h23, h24, h25, h26⟩ := claim_C6_merge3DWithDefaults optsMergeW
  refine ⟨h9 _ rfl, ?_, ?_⟩
  · rw [h12 rfl]; rfl
  · rw [h14 rfl]; exact h15

/-- C10 counterexample: `convertPathsToBase64URIs` does not pass a
reference already beginning with `data:` through unchanged — it converts
every entry unconditionally (here re-wrapping the read file contents as
`image/png`), while the inline conversion used by the generate functions
does pass the same reference through. -/
theorem claim_C10_counterexample :
    convertPathsToBase64URIs capsA ["data:image/jpeg;base64,XYZ"]
      = .ok ["data:image/png;base64,QUJD"]
    ∧ (Except.ok ["data:image/png;base64,QUJD"] : Except String (List String))
        ≠ .ok ["data:image/jpeg;base64,XYZ"]
    ∧ pathToDataURI capsA "data:image/jpeg;base64,XYZ" = .ok "data:image/jpeg;base64,XYZ" := by
  refine ⟨rfl, ?_, rfl⟩
  intro h
  simp at h

/-- C10 amended: the inline reference conversion used when shaping 3D
request bodies preserves list length and order, passes references already
beginning with `data:` through unchanged, and labels every converted
file-path reference `image/png` regardless of the file's actual format;
the standalone `convertPathsToBase64URIs` helper instead converts every
entry unconditionally, labelling each `image/png`, with no `data:`
passthrough. -/
theorem claim_C10_amended (caps : Caps) (paths uris : List String)
    (hconv : mapExcept (pathToDataURI caps) paths = .ok uris) :
    uris.length = paths.length
    ∧ (∀ (i : Nat) (p : String), paths[i]? = some p → jsStartsWith p "data:" = true →
        uris[i]? = some p)
    ∧ (∀ (i : Nat) (p : String), paths[i]? = some p → jsStartsWith p "data:" = false →
        ∃ b64, encodeImageToBase64 caps p = .ok b64
          ∧ uris[i]? = some ("data:image/png;base64," ++ b64))
    ∧ (∀ us : List String, convertPathsToBase64URIs caps paths = .ok us →
        ∀ (i : Nat) (p : String), paths[i]? = some p →
          ∃ b64, encodeImageToBase64 caps p = .ok b64
            ∧ us[i]? = some ("data:image/png;base64," ++ b64)) := by
  refine ⟨mapExcept_ok_length _ _ _ hconv, ?_, ?_, ?_⟩
  · intro i p hp hpre
    obtain ⟨b, hfb, hub⟩ := mapExcept_ok_getElem? _ _ _ hconv i p hp
    have hok : (Except.ok p : Except String String) = .ok b := by
      rw [← hfb]; simp [pathToDataURI, hpre]
    injection hok with hpb
    rw [hpb]
    exact hub
  · intro i p hp hpre
    obtain ⟨b, hfb, hub⟩ := mapExcept_ok_getElem? _ _ _ hconv i p hp
    rw [pathToDataURI] at hfb
    rw [hpre] at hfb
    simp only [Bool.false_eq_true, if_false] at hfb
    cases henc : encodeImageToBase64 caps p with
    | error e => rw [henc] at hfb; simp at hfb
    | ok b64 =>
      rw [henc] at hfb
      simp at hfb
      exact ⟨b64, rfl, by rw [hfb]; exact hub⟩
  · intro us hus i p hp
    unfold convertPathsToBase64URIs at hus
    obtain ⟨b, hfb, hub⟩ := mapExcept_ok_getElem? _ _ _ hus i p hp
    cases henc : encodeImageToBase64 caps p with
    | error e => rw [henc] at hfb; simp at hfb
    | ok b64 =>
      rw [henc] at hfb
      simp at hfb
      exact ⟨b64, rfl, by rw [hfb]; exact hub⟩

/-- C10 witness: for a concrete list holding one `data:` reference and
one file path, the inline conversion succeeds and preserves the length,
by the theorem. -/
theorem claim_C10_witness :
    mapExcept (pathToDataURI capsA) ["data:image/png;base64,AA==", "file.jpg"]
      = .ok ["data:image/png;base64,AA==", "data:image/png;base64,QUJD"]
    ∧ (["data:image/png;base64,AA==", "data:image/png;base64,QUJD"] : List String).length
      = (["data:image/png;base64,AA==", "file.jpg"] : List String).length := by
  have h := claim_C10_amended capsA ["data:image/png;base64,AA==", "file.jpg"]
    ["data:image/png;base64,AA==", "data:image/png;base64,QUJD"] (by rfl)
  exact ⟨by rfl, h.1⟩

/-- C9: a `generate3DModelSmart` request explicitly asking for a turbo
variant with the trellis family fails validation with the trellis-turbo
error and an empty trace: no reference synthesis, no dispatch, no network
interaction, no cleanup — `generate3DModel` is never entered. -/
theorem claim_C9_trellisTurboRejected (env : Env) (prompt outputPath : String)
    (model : Model3DModel) (options : PartialOptions) (v : Model3DVariant)
    (hv : options.variant = some v)
    (hturbo : variantIncludesTurbo v = true)
    (hmodel : options.model.getD model = .trellis)
    (hpath : (jsTrim (options.outputPath.getD outputPath)).length ≠ 0) :
    generate3DModelSmart env prompt outputPath model options
      = (.error "Trellis model does not support turbo variants", {}) := by
  suffices hval :
      validate3DModelOptions (merge3DWithDefaults (smartBaseOptions prompt outputPath model options))
        = .error "Trellis model does not support turbo variants" by
    simp only [generate3DModelSmart, hval]
  have hFv : (merge3DWithDefaults (smartBaseOptions prompt outputPath model options)).variant
      = some v := by
    simp [merge3DWithDefaults, smartBaseOptions, hv]
  have hFm : (merge3DWithDefaults (smartBaseOptions prompt outputPath model options)).model
      = .trellis := by
    simp [merge3DWithDefaults, smartBaseOptions, hmodel]
  have hFo : (merge3DWithDefaults (smartBaseOptions prompt outputPath model options)).outputPath
      = options.outputPath.getD outputPath := by
    simp [merge3DWithDefaults, smartBaseOptions]
  have hFf' : (merge3DWithDefaults (smartBaseOptions prompt outputPath model options)).format
      = (options.format <|> some Model3DFormat.glb) := by
    simp only [merge3DWithDefaults, smartBaseOptions]
    rw [hmodel]
    rfl
  have hFf : (merge3DWithDefaults (smartBaseOptions prompt outputPath model options)).format
        = some Model3DFormat.glb
      ∨ (merge3DWithDefaults (smartBaseOptions prompt outputPath model options)).format
        = some Model3DFormat.gltf := by
    cases hof : options.format with
    | none => left; rw [hFf', hof]; rfl
    | some f =>
      cases f with
      | glb => left; rw [hFf', hof]; rfl
      | gltf => right; rw [hFf', hof]; rfl
  cases v with
  | single => exact absurd hturbo (by decide)
  | multi => exact absurd hturbo (by decide)
  | singleTurbo =>
    rcases hFf with hf | hf <;>
      (unfold validate3DModelOptions
       rw [hFv, hFm, hFo, hf]
       rw [if_neg (by simpa using hpath)]
       rfl)
  | multiTurbo =>
    rcases hFf with hf | hf <;>
      (unfold validate3DModelOptions
       rw [hFv, hFm, hFo, hf]
       rw [if_neg (by simpa using hpath)]
       rfl)

/-- C9 witness: a concrete request with an explicit single-turbo variant
and the trellis family is rejected with the trellis-turbo validation
error and an empty trace, by the theorem. -/
theorem claim_C9_witness :
    ({ variant := some .singleTurbo } : PartialOptions).variant
      = some Model3DVariant.singleTurbo
    ∧ variantIncludesTurbo .singleTurbo = true
    ∧ (jsTrim "o.glb").length ≠ 0
    ∧ generate3DModelSmart envThree "x" "o.glb" .trellis { variant := some .singleTurbo }
      = (.error "Trellis model does not support turbo variants", {}) := by
  refine ⟨rfl, rfl, by decide, ?_⟩
  exact claim_C9_trellisTurboRejected envThree "x" "o.glb" .trellis
    { variant := some .singleTurbo } .singleTurbo rfl rfl rfl (by decide)

/-- The cleanup wrapper of `generate3DModel` never changes the call's
outcome, its synthesis record or its dispatch record; it only fills the
deletion-attempt list (with the synthesized paths when cleanup applies). -/
theorem generate3DModel_parts (env : Env) (options : ExtOptions) :
    (generate3DModel env options).1 = (generate3DModelCore env.caps options).1
    ∧ (generate3DModel env options).2.refSynthCalls
        = (generate3DModelCore env.caps options).2.refSynthCalls
    ∧ (generate3DModel env options).2.dispatched
        = (generate3DModelCore env.caps options).2.dispatched
    ∧ (generate3DModel env options).2.synthesizedPaths
        = (generate3DModelCore env.caps options).2.synthesizedPaths
    ∧ (generate3DModel env options).2.unlinkAttempts
        = (if (options.cleanupReferences.getD true
              && (generate3DModelCore env.caps options).2.synthesizedPaths.length > 0 : Bool)
              = true
           then (generate3DModelCore env.caps options).2.synthesizedPaths
           else (generate3DModelCore env.caps options).2.unlinkAttempts) := by
  simp only [generate3DModel]
  by_cases hcond : (options.cleanupReferences.getD true
      && (generate3DModelCore env.caps options).2.synthesizedPaths.length > 0 : Bool) = true
  · simp [hcond]
  · simp [hcond]

/-- In the core, when a variant was supplied explicitly, any dispatch
uses exactly that variant. -/
theorem generate3DModelCore_dispatched (caps : Caps) (options : ExtOptions)
    (v : Model3DVariant) (hv : options.variant = some v) :
    ∀ mv ∈ (generate3DModelCore caps options).2.dispatched, mv.2 = v := by
  intro mv hmv
  simp only [generate3DModelCore, hv, Option.getD_some] at hmv
  repeat' split at hmv
  all_goals simp at hmv
  all_goals simp [hmv]

/-- In the core, when synthesis runs (no input images, truthy prompt,
auto-synthesis on), exactly one reference-synthesis call is made, with
the views determined by the caller-supplied variant option. -/
theorem generate3DModelCore_refSynth (caps : Caps) (options : ExtOptions)
    (himgs : options.inputImagePaths.getD [] = [])
    (hprompt : strTruthy options.prompt = true)
    (hauto : options.autoGenerateReferences.getD true = true) :
    (generate3DModelCore caps options).2.refSynthCalls
      = [(options.prompt.getD "", replaceFinalExt options.outputPath "",
          (if (options.variant.map variantIncludesMulti).getD false = true
           then options.referenceViews.getD [.front, .back, .top] else [View.front]),
          options.referenceModel.getD .gemini)] := by
  have hds : ((options.inputImagePaths.getD []).isEmpty && strTruthy options.prompt
      && options.autoGenerateReferences.getD true) = true := by
    rw [himgs, hprompt, hauto]; rfl
  simp only [generate3DModelCore, hds]
  repeat' split
  all_goals simp_all

/-- C5 amended: when reference synthesis runs, the views it receives are
all requested viewpoints exactly when the caller-supplied variant option
is a multi-image variant, and just the front viewpoint otherwise (in
particular whenever no variant was supplied); when a variant is supplied
explicitly, every dispatch uses exactly that variant, so for explicit
variants the synthesized views do match the dispatched variant's arity. -/
theorem claim_C5_amended (env : Env) (options : ExtOptions)
    (himgs : options.inputImagePaths.getD [] = [])
    (hprompt : strTruthy options.prompt = true)
    (hauto : options.autoGenerateReferences.getD true = true) :
    (generate3DModel env options).2.refSynthCalls
      = [(options.prompt.getD "", replaceFinalExt options.outputPath "",
          (if (options.variant.map variantIncludesMulti).getD false = true
           then options.referenceViews.getD [.front, .back, .top] else [View.front]),
          options.referenceModel.getD .gemini)]
    ∧ (∀ v, options.variant = some v →
        ∀ mv ∈ (generate3DModel env options).2.dispatched, mv.2 = v) := by
  obtain ⟨-, p2, p3, -, -⟩ := generate3DModel_parts env options
  constructor
  · rw [p2]
    exact generate3DModelCore_refSynth env.caps options himgs hprompt hauto
  · intro v hv mv hmv
    rw [p3] at hmv
    exact generate3DModelCore_dispatched env.caps options v hv mv hmv

/-- C5 counterexample: with no variant supplied and a front-view
synthesis that saves three files, the resolved (dispatched) variant is
the multi-image `multi`, yet synthesis was invoked with just the front
viewpoint rather than all requested viewpoints — the claim read against
the resolved variant is false at this input. -/
theorem claim_C5_counterexample : ¬ resolvedVariantViewsClaim envThree optsPrompt := by
  intro h
  have h1 : (generate3DModel envThree optsPrompt).2.dispatched
      = [(Model3DModel.hunyuan3d, Model3DVariant.multi)] := by rfl
  have h2 : (generate3DModel envThree optsPrompt).2.refSynthCalls
      = [("sword", "out", [View.front], RefModel.gemini)] := by rfl
  have h3 := h (Model3DModel.hunyuan3d, Model3DVariant.multi) (by rw [h1]; simp)
    ("sword", "out", [View.front], RefModel.gemini) (by rw [h2]; simp)
  simp [variantIncludesMulti, optsPrompt] at h3

/-- C5 witness: for the concrete no-variant request, synthesis runs once
with just the front viewpoint, by the amended theorem. -/
theorem claim_C5_witness :
    optsPrompt.inputImagePaths.getD [] = []
    ∧ strTruthy optsPrompt.prompt = true
    ∧ optsPrompt.autoGenerateReferences.getD true = true
    ∧ (generate3DModel envThree optsPrompt).2.refSynthCalls
        = [("sword", "out", [View.front], RefModel.gemini)] := by
  refine ⟨rfl, rfl, rfl, ?_⟩
  have h := (claim_C5_amended envThree optsPrompt rfl rfl rfl).1
  rw [h]
  rfl

/-- C8: whenever cleanup is requested and references were synthesized,
the deletion-attempt list is exactly the synthesized paths, whether the
dispatch succeeded or raised; and the call's outcome and deletion-attempt
list are unchanged under any change to the deletion capability (deletion
failures are recorded, never raised, and never alter the result). -/
theorem claim_C8_cleanup (env env2 : Env) (options : ExtOptions)
    (hcaps : env2.caps = env.caps) :
    ((options.cleanupReferences.getD true = true
        ∧ (generate3DModel env options).2.synthesizedPaths ≠ []) →
      (generate3DModel env options).2.unlinkAttempts
        = (generate3DModel env options).2.synthesizedPaths)
    ∧ (generate3DModel env2 options).1 = (generate3DModel env options).1
    ∧ (generate3DModel env2 options).2.unlinkAttempts
        = (generate3DModel env options).2.unlinkAttempts := by
  obtain ⟨p1, p2, p3, p4, p5⟩ := generate3DModel_parts env options
  obtain ⟨q1, q2, q3, q4, q5⟩ := generate3DModel_parts env2 options
  rw [hcaps] at q1 q5
  refine ⟨?_, by rw [q1, p1], by rw [q5, p5]⟩
  intro h
  obtain ⟨hc, hne⟩ := h
  rw [p4] at hne
  have hcond : (options.cleanupReferences.getD true
      && (generate3DModelCore env.caps options).2.synthesizedPaths.length > 0 : Bool) = true := by
    rw [hc]
    simp only [Bool.true_and, decide_eq_true_eq]
    exact List.length_pos.mpr hne
  rw [p5, p4, if_pos hcond]

/-- C8 witness: with a failing dispatch and a failing deleter, cleanup
still attempts to delete the one synthesized file, and replacing the
failing deleter with a succeeding one leaves the outcome unchanged, by
the theorem. -/
theorem claim_C8_witness :
    envUnlinkOk.caps = envUnlinkFail.caps
    ∧ optsPrompt.cleanupReferences.getD true = true
    ∧ (generate3DModel envUnlinkFail optsPrompt).2.synthesizedPaths ≠ []
    ∧ (generate3DModel envUnlinkFail optsPrompt).2.unlinkAttempts
        = (generate3DModel envUnlinkFail optsPrompt).2.synthesizedPaths
    ∧ (generate3DModel envUnlinkOk optsPrompt).1 = (generate3DModel envUnlinkFail optsPrompt).1 := by
  have h := claim_C8_cleanup envUnlinkFail envUnlinkOk optsPrompt rfl
  have hne : (generate3DModel envUnlinkFail optsPrompt).2.synthesizedPaths ≠ [] := by
    intro hx
    exact absurd (congrArg List.length hx) (by decide)
  exact ⟨rfl, rfl, hne, h.1 ⟨rfl, hne⟩, h.2.1⟩
